import Mathlib

/-!
Verification of the OpenShift `nodeenv` pod-node-environment admission plugin
(`src/vendor/github.com/openshift/origin/pkg/project/apiserver/admission/nodeenv/admission.go`).

The plugin's single decision function `admit` is embedded below as `admitReq`.
The label-selector algebra (`Conflicts`, `Merge`) lives in
`pkg/util/labelselector`, which is not part of the vendored sources here, so
those two functions are modelled from the specification.  The project cache is
an external collaborator; it is modelled as a record of its three observable
operations (`Running`, `GetNamespace`, `GetNodeSelectorMap`).
-/

namespace NodeEnv

/-- A node-selector constraint map: an association list from string keys to
string values.  Go's `map[string]string` is unordered with unique keys; the
list embedding uses `List.lookup` (first occurrence) for map access, and
theorems that need key uniqueness state it as a hypothesis. -/
abbrev ConstraintMap := List (String × String)

/-- The opt-out annotation key, `KubeProjectNodeSelector` in admission.go. -/
def KubeProjectNodeSelector : String := "scheduler.alpha.kubernetes.io/node-selector"

/-- Modelled from the spec: `Conflicts(P, R)` of the `labelselector` utility
package (`pkg/util/labelselector`, absent from the vendored sources).  Per the
spec it is "true iff there exists a key present in both P and R with differing
values". -/
def Conflicts (P R : ConstraintMap) : Bool :=
  P.any fun kv =>
    match List.lookup kv.1 R with
    | some w => kv.2 != w
    | none => false

/-- Modelled from the spec: `Merge(P, R)` of the `labelselector` utility
package (`pkg/util/labelselector`, absent from the vendored sources).  Per the
spec it "returns a map containing every key from P and every key from R; where
a key exists in both ... the value is taken once": the entries of `R` followed
by the entries of `P` whose key does not occur in `R`. -/
def Merge (P R : ConstraintMap) : ConstraintMap :=
  R ++ P.filter fun kv => (List.lookup kv.1 R).isNone

/-- The `schema.GroupResource` pair: the admission request's resource identifier.
`kapi.Resource("pods")` is the pair with empty group and resource `"pods"`. -/
structure GroupResource where
  group : String
  resource : String
deriving DecidableEq, Repr

/-- The value of `kapi.Resource("pods")` (the core API group is `""`). -/
def podsResource : GroupResource := ⟨"", "pods"⟩

/-- The fields of `pod.Spec` the plugin reads or writes, plus an opaque
residue standing for every other field of the pod spec. -/
structure PodSpec where
  nodeSelector : ConstraintMap
  restOfSpec : String
deriving DecidableEq, Repr

/-- The fields of a `kapi.Pod` the plugin reads or writes, plus an opaque
residue standing for every other field of the pod. -/
structure Pod where
  name : String
  spec : PodSpec
  restOfPod : String
deriving DecidableEq, Repr

/-- The admission request's object payload: either a pod or some other kind of
object (the Go code narrows `a.GetObject()` with a type assertion). -/
inductive RuntimeObject where
  | pod (p : Pod)
  | other (descr : String)
deriving DecidableEq, Repr

/-- The `admission.Attributes` fields read by `admit`: resource, subresource,
object payload and target namespace name. -/
structure Attributes where
  resource : GroupResource
  subresource : String
  obj : RuntimeObject
  nsName : String

/-- The namespace record returned by the cache: only its annotations map is
read by `admit`. -/
structure NamespaceRecord where
  annots : List (String × String)

/-- The `ProjectCache` collaborator, modelled by its three operations used in
`admit`: the readiness probe, the namespace fetch, and the derivation of the
effective node-selector map.  Errors are represented by their message. -/
structure ProjectCache where
  running : Bool
  getNamespace : String → Except String NamespaceRecord
  getNodeSelectorMap : NamespaceRecord → Except String ConstraintMap

/-- The error outcome of `admit`: `forbidden` models
`apierrors.NewForbidden(resource, name, err)` and `plain` models an error
returned unwrapped. -/
inductive AdmitError where
  | forbidden (resource : GroupResource) (name : String) (msg : String)
  | plain (msg : String)
deriving DecidableEq, Repr

/-- The exact message of the conflict rejection in admission.go line 82. -/
def conflictsMsg : String :=
  "pod node label selector conflicts with its project node label selector"

/-- The exact message of the does-not-extend rejection in admission.go line 87. -/
def notExtendMsg : String :=
  "pod node label selector does not extend project node label selector"

/-- The function `podNodeEnvironment.admit` from admission.go, lines 42 to 94.  The result
pairs the returned error (`none` is a nil error, i.e. allow) with the request
object after the call, since the Go code mutates the pod in place at line 91.
`Admit` is `admitReq a true cache` and `Validate` is `admitReq a false cache`. -/
def admitReq (a : Attributes) (mutationAllowed : Bool) (cache : ProjectCache) :
    Option AdmitError × RuntimeObject :=
  if a.resource ≠ podsResource then (none, a.obj)
  else if a.subresource ≠ "" then (none, a.obj)
  else
    match a.obj with
    | .other d => (none, .other d)
    | .pod pod =>
      if cache.running = false then (none, .pod pod)
      else
        match cache.getNamespace a.nsName with
        | .error e => (some (.forbidden a.resource pod.name e), .pod pod)
        | .ok ns =>
          if 0 < ns.annots.length ∧ (List.lookup KubeProjectNodeSelector ns.annots).isSome then
            (none, .pod pod)
          else
            match cache.getNodeSelectorMap ns with
            | .error e => (some (.plain e), .pod pod)
            | .ok projectNodeSelector =>
              if Conflicts projectNodeSelector pod.spec.nodeSelector then
                (some (.forbidden a.resource pod.name conflictsMsg), .pod pod)
              else if mutationAllowed = false ∧
                  (Merge projectNodeSelector pod.spec.nodeSelector).length ≠
                    pod.spec.nodeSelector.length then
                (some (.forbidden a.resource pod.name notExtendMsg), .pod pod)
              else
                (none, .pod { pod with spec := { pod.spec with
                  nodeSelector := Merge projectNodeSelector pod.spec.nodeSelector } })

/-! Concrete fixtures used by witness and counterexample theorems. -/

/-- Fixture: a pod named `mypod` with the given node selector. -/
def podWith (R : ConstraintMap) : Pod := ⟨"mypod", ⟨R, "restOfSpecValue"⟩, "restOfPodValue"⟩

/-- Fixture: pod-creation attributes carrying the given payload for
namespace `ns1`. -/
def attrsFor (o : RuntimeObject) : Attributes := ⟨podsResource, "", o, "ns1"⟩

/-- Fixture: a ready cache whose namespace has no annotations and whose
effective node selector is `P`. -/
def okCache (P : ConstraintMap) : ProjectCache :=
  ⟨true, fun _ => .ok ⟨[]⟩, fun _ => .ok P⟩

/-- Fixture: the one-entry constraint map of scenario A. -/
def eastMap : ConstraintMap := [("zone", "east")]

/-- Fixture: the conflicting pod selector of scenario B. -/
def westMap : ConstraintMap := [("zone", "west")]

/-- Fixture: the non-extending pod selector of scenario D. -/
def dsMap : ConstraintMap := [("disk", "ssd")]

/-- Fixture: the extending pod selector of scenario C. -/
def extendedMap : ConstraintMap := [("zone", "east"), ("disk", "ssd")]

/-- Fixture: a namespace record carrying the opt-out annotation. -/
def optOutNs : NamespaceRecord := ⟨[(KubeProjectNodeSelector, "env=qa")]⟩

/-- Fixture: a namespace fetch that always finds `optOutNs`. -/
def optOutGetNs : String → Except String NamespaceRecord := fun _ => .ok optOutNs

/-- Fixture: a ready cache whose namespace fetch fails. -/
def errNsCache : ProjectCache :=
  ⟨true, fun _ => .error "namespace not found", fun _ => .ok []⟩

/-- Fixture: a ready cache whose node-selector derivation fails. -/
def errSelCache : ProjectCache :=
  ⟨true, fun _ => .ok ⟨[]⟩, fun _ => .error "selector parse failure"⟩

/-- Fixture: non-pod attributes (resource kind `services`). -/
def svcAttrs : Attributes := ⟨⟨"", "services"⟩, "", .other "payload", "ns1"⟩

/-! Helper lemmas about `List.lookup`, `Merge` and `Conflicts`. -/

theorem lookup_append (k : String) (l₁ l₂ : List (String × String)) :
    List.lookup k (l₁ ++ l₂) =
      match List.lookup k l₁ with
      | some v => some v
      | none => List.lookup k l₂ := by
  induction l₁ with
  | nil => simp
  | cons kv t ih =>
    rcases kv with ⟨k', v'⟩
    by_cases h : k == k'
    · simp [List.lookup, h]
    · simp only [List.cons_append, List.lookup, h]
      exact ih

theorem lookup_isSome_of_mem {k v : String} {l : List (String × String)}
    (h : (k, v) ∈ l) : (List.lookup k l).isSome := by
  induction l with
  | nil => cases h
  | cons kv t ih =>
    rcases kv with ⟨k', v'⟩
    rcases List.mem_cons.mp h with h₁ | h₁
    · obtain ⟨hk, hv⟩ := Prod.mk.injEq .. ▸ h₁
      simp [List.lookup, hk]
    · by_cases hb : k == k'
      · simp [List.lookup, hb]
      · simpa [List.lookup, hb] using ih h₁

theorem merge_lookup_isSome_left {P R : ConstraintMap} {kv : String × String}
    (h : kv ∈ P) : (List.lookup kv.1 (Merge P R)).isSome := by
  obtain ⟨k, v⟩ := kv
  unfold Merge
  rw [lookup_append]
  rcases hR : List.lookup k R with _ | w
  · have hmem : (k, v) ∈ P.filter fun kv => (List.lookup kv.1 R).isNone :=
      List.mem_filter.mpr ⟨h, by simp [hR]⟩
    simpa using lookup_isSome_of_mem hmem
  · simp

theorem merge_lookup_isSome_right {P R : ConstraintMap} {kv : String × String}
    (h : kv ∈ R) : (List.lookup kv.1 (Merge P R)).isSome := by
  obtain ⟨k, v⟩ := kv
  unfold Merge
  rw [lookup_append]
  have hs := lookup_isSome_of_mem h
  rcases hR : List.lookup k R with _ | w
  · rw [hR] at hs; cases hs
  · simp

theorem conflicts_eq_false_iff {P R : ConstraintMap} :
    Conflicts P R = false ↔
      ∀ kv ∈ P, ∀ w, List.lookup kv.1 R = some w → kv.2 = w := by
  unfold Conflicts
  rw [List.any_eq_false]
  constructor
  · intro h kv hkv w hw
    have := h kv hkv
    rw [hw] at this
    simpa using this
  · intro h kv hkv
    rcases hR : List.lookup kv.1 R with _ | w
    · simp
    · simpa using h kv hkv w hR

theorem merge_length (P R : ConstraintMap) :
    (Merge P R).length =
      R.length + (P.filter fun kv => (List.lookup kv.1 R).isNone).length := by
  unfold Merge
  exact List.length_append ..

theorem merge_eq_of_length_eq {P R : ConstraintMap}
    (h : (Merge P R).length = R.length) : Merge P R = R := by
  have hf : (P.filter fun kv => (List.lookup kv.1 R).isNone).length = 0 := by
    have := merge_length P R
    omega
  rw [List.length_eq_zero] at hf
  unfold Merge
  rw [hf, List.append_nil]

theorem nonempty_of_lookup_isSome {k : String} {l : List (String × String)}
    (h : (List.lookup k l).isSome) : 0 < l.length := by
  cases l with
  | nil => simp [List.lookup] at h
  | cons kv t => simp

/-- Helper: the two validating-phase outcomes after a successful resolution
with no opt-out and no conflict, as decided by the size comparison. -/
theorem validating_branches (a : Attributes) (pod : Pod) (ns : NamespaceRecord)
    (P : ConstraintMap) (cache : ProjectCache)
    (hres : a.resource = podsResource) (hsub : a.subresource = "")
    (hobj : a.obj = .pod pod) (hrun : cache.running = true)
    (hns : cache.getNamespace a.nsName = .ok ns)
    (hopt : List.lookup KubeProjectNodeSelector ns.annots = none)
    (hsel : cache.getNodeSelectorMap ns = .ok P)
    (hconf : Conflicts P pod.spec.nodeSelector = false) :
    ((Merge P pod.spec.nodeSelector).length ≠ pod.spec.nodeSelector.length →
      admitReq a false cache =
        (some (.forbidden podsResource pod.name notExtendMsg), .pod pod)) ∧
    ((Merge P pod.spec.nodeSelector).length = pod.spec.nodeSelector.length →
      admitReq a false cache = (none, .pod pod)) := by
  constructor
  · intro hne
    simp [admitReq, hres, hsub, hobj, hrun, hns, hopt, hsel, hconf, hne]
  · intro heq
    have hmerge := merge_eq_of_length_eq heq
    simp [admitReq, hres, hsub, hobj, hrun, hns, hopt, hsel, hconf, heq, hmerge]

/-- C7: if the cache's readiness probe `Running` is false, `admit` returns a
nil error and leaves the request object unchanged, in both phases and for
every namespace fetch and node-selector derivation (so no lookup result, no
conflict check and no mutation can influence the outcome). -/
theorem admit_cache_not_running (a : Attributes) (m : Bool)
    (f : String → Except String NamespaceRecord)
    (g : NamespaceRecord → Except String ConstraintMap) :
    admitReq a m ⟨false, f, g⟩ = (none, a.obj) := by
  rcases hA : a.obj with pod | d <;> simp [admitReq, hA]

/-- C8: a request whose resource kind is not exactly `pods`, or whose
subresource is non-empty, is allowed unchanged in both phases, for every
cache (so no policy is evaluated and the cache is not consulted). -/
theorem admit_not_applicable (a : Attributes) (m : Bool) (cache : ProjectCache)
    (h : a.resource.resource ≠ "pods" ∨ a.subresource ≠ "") :
    admitReq a m cache = (none, a.obj) := by
  unfold admitReq
  rcases h with h | h
  · rw [if_pos]
    intro hc
    exact h (by rw [hc]; rfl)
  · rcases eq_or_ne a.resource podsResource with h1 | h1
    · rw [if_neg (by simp [h1]), if_pos h]
    · rw [if_pos h1]

/-- Witness for C8 at the concrete non-pod resource `services`. -/
theorem admit_not_applicable_witness :
    (svcAttrs.resource.resource ≠ "pods" ∨ svcAttrs.subresource ≠ "") ∧
    admitReq svcAttrs true (okCache eastMap) = (none, svcAttrs.obj) :=
  ⟨Or.inl (by decide),
    admit_not_applicable svcAttrs true (okCache eastMap) (Or.inl (by decide))⟩

/-- C10: a `pods`-with-empty-subresource request whose payload is not a pod
value is allowed unchanged in both phases, for every cache. -/
theorem admit_non_pod_payload (a : Attributes) (m : Bool) (cache : ProjectCache)
    (d : String) (hres : a.resource = podsResource) (hsub : a.subresource = "")
    (hobj : a.obj = .other d) :
    admitReq a m cache = (none, a.obj) := by
  simp [admitReq, hobj]

/-- Witness for C10 at a concrete non-pod payload. -/
theorem admit_non_pod_payload_witness :
    (attrsFor (.other "payload")).resource = podsResource ∧
    (attrsFor (.other "payload")).subresource = "" ∧
    admitReq (attrsFor (.other "payload")) false (okCache eastMap) =
      (none, (attrsFor (.other "payload")).obj) :=
  ⟨rfl, rfl,
    admit_non_pod_payload (attrsFor (.other "payload")) false (okCache eastMap)
      "payload" rfl rfl rfl⟩

/-- C1: in the mutating phase, an applicable request (pods resource, empty
subresource, pod payload, ready cache, namespace found, no opt-out
annotation, node-selector map derived, no conflict) is allowed with the pod's
node selector replaced by `Merge P R`, a map whose lookup succeeds on every
key of `P` and every key of `R`. -/
theorem admit_mutating_merges (a : Attributes) (pod : Pod) (ns : NamespaceRecord)
    (P : ConstraintMap) (cache : ProjectCache)
    (hres : a.resource = podsResource) (hsub : a.subresource = "")
    (hobj : a.obj = .pod pod) (hrun : cache.running = true)
    (hns : cache.getNamespace a.nsName = .ok ns)
    (hopt : List.lookup KubeProjectNodeSelector ns.annots = none)
    (hsel : cache.getNodeSelectorMap ns = .ok P)
    (hconf : Conflicts P pod.spec.nodeSelector = false) :
    admitReq a true cache =
      (none, .pod { pod with spec := { pod.spec with
        nodeSelector := Merge P pod.spec.nodeSelector } }) ∧
    (∀ kv ∈ P, (List.lookup kv.1 (Merge P pod.spec.nodeSelector)).isSome) ∧
    (∀ kv ∈ pod.spec.nodeSelector,
      (List.lookup kv.1 (Merge P pod.spec.nodeSelector)).isSome) := by
  refine ⟨?_, fun kv hkv => merge_lookup_isSome_left hkv,
    fun kv hkv => merge_lookup_isSome_right hkv⟩
  simp [admitReq, hres, hsub, hobj, hrun, hns, hopt, hsel, hconf]

/-- Witness for C1: scenario A, namespace default `{zone: east}`, empty pod
selector, mutating phase; the pod comes back with selector `{zone: east}`. -/
theorem admit_mutating_merges_witness :
    Conflicts eastMap ([] : ConstraintMap) = false ∧
    admitReq (attrsFor (.pod (podWith []))) true (okCache eastMap) =
      (none, .pod (podWith [("zone", "east")])) :=
  ⟨by decide,
    (admit_mutating_merges (attrsFor (.pod (podWith []))) (podWith [])
      ⟨[]⟩ eastMap (okCache eastMap) rfl rfl rfl rfl rfl rfl rfl (by decide)).1⟩

/-- C2 (amended): in the validating phase, an applicable conflict-free request
is denied with the Forbidden message
"pod node label selector does not extend project node label selector" when
the merged size differs from the pod-selector size, and is otherwise allowed
with the pod returned unchanged. -/
theorem admit_validating_extend (a : Attributes) (pod : Pod) (ns : NamespaceRecord)
    (P : ConstraintMap) (cache : ProjectCache)
    (hres : a.resource = podsResource) (hsub : a.subresource = "")
    (hobj : a.obj = .pod pod) (hrun : cache.running = true)
    (hns : cache.getNamespace a.nsName = .ok ns)
    (hopt : List.lookup KubeProjectNodeSelector ns.annots = none)
    (hsel : cache.getNodeSelectorMap ns = .ok P)
    (hconf : Conflicts P pod.spec.nodeSelector = false) :
    ((Merge P pod.spec.nodeSelector).length ≠ pod.spec.nodeSelector.length →
      admitReq a false cache =
        (some (.forbidden podsResource pod.name notExtendMsg), .pod pod)) ∧
    ((Merge P pod.spec.nodeSelector).length = pod.spec.nodeSelector.length →
      admitReq a false cache = (none, .pod pod)) :=
  validating_branches a pod ns P cache hres hsub hobj hrun hns hopt hsel hconf

/-- Witness for C2: scenario C, default `{zone: east}`, pod selector
`{zone: east, disk: ssd}`, validating phase; allowed with the pod unchanged. -/
theorem admit_validating_extend_witness :
    Conflicts eastMap extendedMap = false ∧
    (Merge eastMap extendedMap).length = extendedMap.length ∧
    admitReq (attrsFor (.pod (podWith extendedMap))) false (okCache eastMap) =
      (none, .pod (podWith extendedMap)) :=
  ⟨by decide, by decide,
    (admit_validating_extend (attrsFor (.pod (podWith extendedMap)))
      (podWith extendedMap) ⟨[]⟩ eastMap (okCache eastMap)
      rfl rfl rfl rfl rfl rfl rfl (by decide)).2 (by decide)⟩

/-- Counterexample for C2 as stated: at scenario D (default `{zone: east}`,
pod selector `{disk: ssd}`, validating phase) the code denies, but the
Forbidden message is
"pod node label selector does not extend project node label selector", not
the claimed "pod node selector does not extend project node selector". -/
theorem admit_validating_msg_counterexample :
    admitReq (attrsFor (.pod (podWith dsMap))) false (okCache eastMap) =
      (some (.forbidden podsResource "mypod" notExtendMsg), .pod (podWith dsMap)) ∧
    notExtendMsg ≠ "pod node selector does not extend project node selector" :=
  ⟨by decide, by decide⟩

/-- C3 (amended): in either phase, an applicable request whose pod selector
conflicts with the project selector is denied with the Forbidden message
"pod node label selector conflicts with its project node label selector". -/
theorem admit_conflict_denies (a : Attributes) (pod : Pod) (ns : NamespaceRecord)
    (P : ConstraintMap) (cache : ProjectCache) (m : Bool)
    (hres : a.resource = podsResource) (hsub : a.subresource = "")
    (hobj : a.obj = .pod pod) (hrun : cache.running = true)
    (hns : cache.getNamespace a.nsName = .ok ns)
    (hopt : List.lookup KubeProjectNodeSelector ns.annots = none)
    (hsel : cache.getNodeSelectorMap ns = .ok P)
    (hconf : Conflicts P pod.spec.nodeSelector = true) :
    admitReq a m cache =
      (some (.forbidden podsResource pod.name conflictsMsg), .pod pod) := by
  simp [admitReq, hres, hsub, hobj, hrun, hns, hopt, hsel, hconf]

/-- Witness for C3: scenario B, default `{zone: east}`, pod selector
`{zone: west}`, mutating phase; denied with the conflict message. -/
theorem admit_conflict_denies_witness :
    Conflicts eastMap westMap = true ∧
    admitReq (attrsFor (.pod (podWith westMap))) true (okCache eastMap) =
      (some (.forbidden podsResource "mypod" conflictsMsg), .pod (podWith westMap)) :=
  ⟨by decide,
    admit_conflict_denies (attrsFor (.pod (podWith westMap))) (podWith westMap)
      ⟨[]⟩ eastMap (okCache eastMap) true rfl rfl rfl rfl rfl rfl rfl (by decide)⟩

/-- Counterexample for C3 as stated: at scenario B (default `{zone: east}`,
pod selector `{zone: west}`) the code denies, but the Forbidden message is
"pod node label selector conflicts with its project node label selector", not
the claimed "pod node selector conflicts with project node selector". -/
theorem admit_conflict_msg_counterexample :
    admitReq (attrsFor (.pod (podWith westMap))) true (okCache eastMap) =
      (some (.forbidden podsResource "mypod" conflictsMsg), .pod (podWith westMap)) ∧
    conflictsMsg ≠ "pod node selector conflicts with project node selector" :=
  ⟨by decide, by decide⟩

/-- C5: when the fetched namespace record carries the opt-out annotation key
(with any value), `admit` allows the request unchanged in both phases and
for every node-selector derivation `g` (so the effective default map is
never computed). -/
theorem admit_opt_out (a : Attributes) (pod : Pod) (ns : NamespaceRecord) (m : Bool)
    (f : String → Except String NamespaceRecord)
    (hobj : a.obj = .pod pod)
    (hns : f a.nsName = .ok ns)
    (hopt : (List.lookup KubeProjectNodeSelector ns.annots).isSome) :
    ∀ g, admitReq a m ⟨true, f, g⟩ = (none, a.obj) := by
  intro g
  have hlen : 0 < ns.annots.length := nonempty_of_lookup_isSome hopt
  simp [admitReq, hobj, hns, hlen, hopt]

/-- Witness for C5: scenario E, opt-out annotation present, with a
node-selector derivation that would fail if it were consulted. -/
theorem admit_opt_out_witness :
    optOutGetNs "ns1" = .ok optOutNs ∧
    (List.lookup KubeProjectNodeSelector optOutNs.annots).isSome = true ∧
    admitReq (attrsFor (.pod (podWith westMap))) true
      ⟨true, optOutGetNs, fun _ => .error "derivation consulted"⟩ =
      (none, .pod (podWith westMap)) :=
  ⟨rfl, by decide,
    admit_opt_out (attrsFor (.pod (podWith westMap))) (podWith westMap) optOutNs
      true optOutGetNs rfl rfl (by decide) (fun _ => .error "derivation consulted")⟩

/-- C6: with a ready cache, a namespace-fetch failure is returned as a
Forbidden error carrying the resource and the pod name, while a
node-selector-derivation failure is returned unwrapped, in both phases. -/
theorem admit_error_propagation (a : Attributes) (pod : Pod) (m : Bool)
    (cache : ProjectCache)
    (hres : a.resource = podsResource) (hsub : a.subresource = "")
    (hobj : a.obj = .pod pod) (hrun : cache.running = true) :
    (∀ e, cache.getNamespace a.nsName = .error e →
      admitReq a m cache = (some (.forbidden podsResource pod.name e), .pod pod)) ∧
    (∀ ns e, cache.getNamespace a.nsName = .ok ns →
      List.lookup KubeProjectNodeSelector ns.annots = none →
      cache.getNodeSelectorMap ns = .error e →
      admitReq a m cache = (some (.plain e), .pod pod)) := by
  constructor
  · intro e he
    simp [admitReq, hres, hsub, hobj, hrun, he]
  · intro ns e hns hopt hsel
    simp [admitReq, hres, hsub, hobj, hrun, hns, hopt, hsel]

/-- Witness for C6 at a failing namespace fetch and at a failing
node-selector derivation. -/
theorem admit_error_propagation_witness :
    errNsCache.getNamespace "ns1" = .error "namespace not found" ∧
    admitReq (attrsFor (.pod (podWith []))) true errNsCache =
      (some (.forbidden podsResource "mypod" "namespace not found"), .pod (podWith [])) ∧
    errSelCache.getNodeSelectorMap ⟨[]⟩ = .error "selector parse failure" ∧
    admitReq (attrsFor (.pod (podWith []))) false errSelCache =
      (some (.plain "selector parse failure"), .pod (podWith [])) :=
  ⟨rfl,
    (admit_error_propagation (attrsFor (.pod (podWith []))) (podWith []) true
      errNsCache rfl rfl rfl rfl).1 "namespace not found" rfl,
    rfl,
    (admit_error_propagation (attrsFor (.pod (podWith []))) (podWith []) false
      errSelCache rfl rfl rfl rfl).2 ⟨[]⟩ "selector parse failure" rfl rfl rfl⟩

/-- C4: for conflict-free `P` and `R`, the merged size equals the size of `R`
exactly when every key-value pair of `P` already occurs in `R`; the
validating-phase size comparison is therefore an exact containment test once
the conflict check has passed. -/
theorem merge_length_eq_iff (P R : ConstraintMap) (h : Conflicts P R = false) :
    (Merge P R).length = R.length ↔
      ∀ kv ∈ P, List.lookup kv.1 R = some kv.2 := by
  have hchar := conflicts_eq_false_iff.mp h
  constructor
  · intro hlen kv hkv
    have hf : (P.filter fun kv => (List.lookup kv.1 R).isNone).length = 0 := by
      have hml := merge_length P R
      omega
    rw [List.length_eq_zero, List.filter_eq_nil_iff] at hf
    have hnone := hf kv hkv
    rcases hR : List.lookup kv.1 R with _ | w
    · rw [hR] at hnone; simp at hnone
    · exact congrArg some (hchar kv hkv w hR).symm
  · intro hsub
    have hf : (P.filter fun kv => (List.lookup kv.1 R).isNone) = [] := by
      apply List.filter_eq_nil_iff.mpr
      intro kv hkv
      simp [hsub kv hkv]
    rw [merge_length, hf]
    simp

/-- Witness for C4 at `P = {zone: east}`, `R = {zone: east, disk: ssd}`. -/
theorem merge_length_eq_iff_witness :
    Conflicts eastMap extendedMap = false ∧
    ((Merge eastMap extendedMap).length = extendedMap.length ↔
      ∀ kv ∈ eastMap, List.lookup kv.1 extendedMap = some kv.2) :=
  ⟨by decide, merge_length_eq_iff eastMap extendedMap (by decide)⟩

/-- C9: `admit` never partially edits the pod: either the request object is
returned exactly as it came in, or the outcome is an allow in which the only
change is the wholesale replacement of the pod's node selector by the full
`Merge` of the resolved project selector with the pod's own selector. -/
theorem admit_frame (a : Attributes) (m : Bool) (cache : ProjectCache) :
    (admitReq a m cache).2 = a.obj ∨
      ((admitReq a m cache).1 = none ∧
        ∃ pod ns P, a.obj = .pod pod ∧
          cache.getNamespace a.nsName = .ok ns ∧
          cache.getNodeSelectorMap ns = .ok P ∧
          (admitReq a m cache).2 = .pod { pod with spec := { pod.spec with
            nodeSelector := Merge P pod.spec.nodeSelector } }) := by
  rcases hA : a.obj with pod | d
  · by_cases h1 : a.resource = podsResource
    · by_cases h2 : a.subresource = ""
      · rcases hrun : cache.running with _ | _
        · left; simp [admitReq, hA, h1, h2, hrun]
        · rcases hns : cache.getNamespace a.nsName with e | ns
          · left; simp [admitReq, hA, h1, h2, hrun, hns]
          · by_cases hopt : 0 < ns.annots.length ∧
                (List.lookup KubeProjectNodeSelector ns.annots).isSome
            · left; simp [admitReq, hA, h1, h2, hrun, hns, hopt]
            · rcases hsel : cache.getNodeSelectorMap ns with e | P
              · left
                simp [admitReq, hA, h1, h2, hrun, hns, if_neg hopt, hsel]
              · by_cases hconf : Conflicts P pod.spec.nodeSelector = true
                · left
                  simp [admitReq, hA, h1, h2, hrun, hns, if_neg hopt, hsel,
                    hconf]
                · by_cases hext : m = false ∧
                      (Merge P pod.spec.nodeSelector).length ≠
                        pod.spec.nodeSelector.length
                  · left
                    simp [admitReq, hA, h1, h2, hrun, hns, if_neg hopt, hsel,
                      hconf, if_pos hext]
                  · right
                    refine ⟨?_, pod, ns, P, rfl, rfl, hsel, ?_⟩ <;>
                      simp [admitReq, hA, h1, h2, hrun, hns, if_neg hopt, hsel,
                        hconf, if_neg hext]
      · left; simp [admitReq, hA, h1, h2]
    · left; simp [admitReq, hA, h1]
  · left; simp [admitReq, hA]

end NodeEnv
